import Mathlib

/- Shallow embedding of the session/turn-synchronization core of
   INDA24PlusPlus/vhultman-chess-gui: src/network.rs (session protocol over TCP)
   and src/main.rs (turn loop, inbound-move translation, move selection state
   machine). The rule engine (`chess` crate) and the byte codec
   (`chess_networking` crate) are external collaborators; they are abstracted as
   function parameters and as decoded-record streams respectively. -/

namespace ChessGui

/-- Start message of the networking protocol (external crate `chess_networking`,
with the field set the repository uses). `time` and `inc` are opaque clock
fields carried through unchanged. -/
structure Start where
  is_white : Bool
  name : String
  fen : Option String
  time : Option Nat
  inc : Option Nat
  deriving DecidableEq

/-- Promotion piece choices of the wire format (spec: Knight/Bishop/Rook/Queen). -/
inductive PromoPiece
  | knight
  | bishop
  | rook
  | queen
  deriving DecidableEq

/-- Move message (crate `chess_networking::Move`) as constructed and consumed in
main.rs. The source field names `from`/`to` are Lean keywords, rendered here as
`fromSq`/`toSq`; each is a (file, rank-from-top) pair of bytes, modeled as Nat.
`ofer_draw` keeps the source's spelling. -/
structure MoveRec where
  fromSq : Nat × Nat
  toSq : Nat × Nat
  promotion : Option PromoPiece
  forfeit : Bool
  ofer_draw : Bool
  deriving DecidableEq

/-- Ack message; its payload is opaque to this core (spec: accept/decline flag). -/
structure AckRec where
  ok : Bool
  deriving DecidableEq

/-- I/O error kinds relevant to the polling contract: the would-block condition
versus genuine failures (reset connection, broken pipe). -/
inductive IoErr
  | wouldBlock
  | connReset
  | brokenPipe
  deriving DecidableEq

/-- Genuine failures are every I/O error other than would-block. -/
def IoErr.genuine : IoErr → Bool
  | .wouldBlock => false
  | _ => true

/- ------------------------------------------------------------------ -/
/- Handshake (network.rs, Server::handle_setup / Client::handle_setup) -/
/- ------------------------------------------------------------------ -/

/-- Server::handle_setup (network.rs lines 51-63), happy path: the server reads
the client's Start (bound to `what_client_wants` but never used by the source),
builds the reply as a clone of its own request with `is_white` negated, writes
it, and returns its own request unchanged. Result: (reply written to the
client, value returned to the host caller). -/
def serverHandleSetup (desired_start : Start) (_what_client_wants : Start) :
    Start × Start :=
  let client := { desired_start with is_white := !desired_start.is_white }
  (client, desired_start)

/-- Client::handle_setup (network.rs lines 119-128), happy path: the client
writes its own request first, then returns the host's decoded reply verbatim. -/
def clientHandleSetup (hostReply : Start) : Start := hostReply

/-- One full handshake over a connection that delivers each written message as
one read (the source's framing assumption): the joiner's request reaches the
host, the host's reply reaches the joiner. Returns the pair
(host-side Agreement, joiner-side Agreement). -/
def establish (hostReq joinerReq : Start) : Start × Start :=
  let r := serverHandleSetup hostReq joinerReq
  (r.2, clientHandleSetup r.1)

/-- Outcome of one blocking read during the handshake: the read call itself
fails with an I/O error, or it yields bytes that decode to a Start
(`decoded (some s)`), or bytes that do not decode (`decoded none`), which
covers a zero-byte read and any malformed payload. The byte codec is the
external `chess_networking` crate. -/
inductive StartRead
  | fail (e : IoErr)
  | decoded (s : Option Start)
  deriving DecidableEq

/-- How handle_setup finishes: an Ok value, an error result returned to the
caller, or a panic (the source's `try_into().unwrap()` on undecodable bytes). -/
inductive SetupOutcome
  | ok (s : Start)
  | err (e : IoErr)
  | panicked
  deriving DecidableEq

/-- Whether a setup outcome is an error result surfaced to the caller. -/
def SetupOutcome.isErr : SetupOutcome → Bool
  | .err _ => true
  | _ => false

/-- Server::handle_setup including its failure behavior (network.rs lines
52-54): a failed read propagates through `?` as an error result; a read that
returns bytes which do not decode hits `try_into().unwrap()` and panics. -/
def serverSetupOutcome (desired_start : Start) (r : StartRead) : SetupOutcome :=
  match r with
  | .fail e => .err e
  | .decoded none => .panicked
  | .decoded (some _) => .ok desired_start

/-- Client::handle_setup including its failure behavior (network.rs lines
123-127); the client's own write of `desired_start` is assumed to succeed and
the decoded host reply is returned. -/
def clientSetupOutcome (_desired_start : Start) (r : StartRead) : SetupOutcome :=
  match r with
  | .fail e => .err e
  | .decoded none => .panicked
  | .decoded (some s) => .ok s

/- ------------------------------------------------------- -/
/- Non-blocking polling (receive_move / receive_ack)       -/
/- ------------------------------------------------------- -/

/-- Outcome of one non-blocking read of a move message, before the source's
error handling is applied. -/
inductive MoveRead
  | fail (e : IoErr)
  | decoded (m : Option MoveRec)
  deriving DecidableEq

/-- Outcome of one non-blocking read of an ack message. -/
inductive AckRead
  | fail (e : IoErr)
  | decoded (a : Option AckRec)
  deriving DecidableEq

/-- Result of receive_move as seen by the caller. -/
inductive RecvMoveOutcome
  | ok (m : Option MoveRec)
  | err (e : IoErr)
  | panicked
  deriving DecidableEq

/-- Result of receive_ack as seen by the caller. -/
inductive RecvAckOutcome
  | ok (a : Option AckRec)
  | err (e : IoErr)
  | panicked
  deriving DecidableEq

/-- receive_move (network.rs lines 72-81 and 137-146, identical on both ends):
any read error — would-block or genuine — is turned into Ok(None); a read that
yields a decodable message gives Ok(Some); a read that yields undecodable bytes
hits `try_into().unwrap()` and panics. -/
def receiveMoveOutcome : MoveRead → RecvMoveOutcome
  | .fail _ => .ok none
  | .decoded none => .panicked
  | .decoded (some m) => .ok (some m)

/-- receive_ack (network.rs lines 40-49 and 108-117), same shape as
receive_move. -/
def receiveAckOutcome : AckRead → RecvAckOutcome
  | .fail _ => .ok none
  | .decoded none => .panicked
  | .decoded (some a) => .ok (some a)

/-- One direction of the connection during gameplay, modeled as a FIFO of
decoded move records: the source assumes each single write is read back as
exactly one complete message, and the byte codec round-trips. send_move
(network.rs lines 65-70, 130-135) appends one record. -/
def sendMoveCh (ch : List MoveRec) (m : MoveRec) : List MoveRec := ch ++ [m]

/-- receive_move against the FIFO: the oldest pending record, if any, is
consumed. -/
def receiveMoveCh (ch : List MoveRec) : Option MoveRec × List MoveRec :=
  match ch with
  | [] => (none, [])
  | m :: rest => (some m, rest)

/- ------------------------------------------------------- -/
/- main.rs helpers: square names, move strings             -/
/- ------------------------------------------------------- -/

/-- square (main.rs lines 423-429): board index of a two-character square name,
x0 = file char - 97, y0 = 8 - rank digit, index = y0 * 8 + x0. The source
panics on strings shorter than two characters (never reached); the default
branch here returns 0. -/
def square (s : String) : Nat :=
  match s.data with
  | c0 :: c1 :: _ => (8 - (c1.toNat - 48)) * 8 + (c0.toNat - 97)
  | _ => 0

/-- move_squares (main.rs lines 419-421): the source slices bytes [0..2] and
[2..4]; `square` only reads the first two characters of its argument, so
passing the tail from position 2 is equivalent for the ASCII move strings this
is applied to. -/
def move_squares (s : String) : Nat × Nat :=
  (square s, square (String.mk (s.data.drop 2)))

/-- is_promotion (main.rs lines 415-417): a move string longer than four
characters whose fifth character is not the en-passant marker. The source
unwraps the fifth character after the length guard; the default here is only
reachable when the guard already failed. -/
def is_promotion (m : String) : Bool :=
  decide (4 < m.length) && (m.data.getD 4 'e' != 'e')

/-- Outgoing record built in main.rs lines 113-120 from a finalized move
string: each board index is split into (index & 7, index / 8), and `promotion`
is always `none`, as are both flags. -/
def mainOutgoingRecord (m : String) : MoveRec :=
  let p := move_squares m
  { fromSq := (p.1 % 8, p.1 / 8)
    toSq := (p.2 % 8, p.2 / 8)
    promotion := none
    forfeit := false
    ofer_draw := false }

/-- Move string rebuilt from an inbound record in main.rs lines 84-89: four
characters, 'a' + file and '8' - rank for each endpoint; any promotion
information in the record is dropped. -/
def recvMoveString (m : MoveRec) : String :=
  String.mk [Char.ofNat (97 + m.fromSq.1), Char.ofNat (56 - m.fromSq.2),
             Char.ofNat (97 + m.toSq.1), Char.ofNat (56 - m.toSq.2)]

/-- Wire pair for one board index, main.rs lines 115-116: (index & 7,
index / 8); the bitmask & 7 equals % 8. -/
def encodeWire (idx : Nat) : Nat × Nat := (idx % 8, idx / 8)

/-- Square-name characters rebuilt from a wire pair, main.rs lines 86-87:
('a' + file, '8' - rank-from-top). -/
def decodeWireName (p : Nat × Nat) : Char × Char :=
  (Char.ofNat (97 + p.1), Char.ofNat (56 - p.2))

/- ------------------------------------------------------- -/
/- Turn state                                              -/
/- ------------------------------------------------------- -/

/-- Turn ownership as the spec names it. The source carries it as the boolean
`our_turn`, true meaning the local side may move; the source has no GameOver
variant. -/
inductive TurnState
  | LocalTurn
  | RemoteTurn
  deriving DecidableEq

/-- Initialization of the turn flag, main.rs line 55:
`let mut our_turn = start.is_white == false;`. -/
def initTurn (start : Start) : Bool := start.is_white == false

/-- Reading of the boolean turn flag as a TurnState. -/
def turnStateOfFlag (b : Bool) : TurnState :=
  if b then .LocalTurn else .RemoteTurn

/- ------------------------------------------------------- -/
/- Move selection state machine (main.rs MoveSelector)     -/
/- ------------------------------------------------------- -/

/-- MoveSelector (main.rs lines 269-274). `promotion_prompt` is the open
PromotionUI; its rectangle geometry is presentation state, so only its
presence is modeled — clicks on it enter through `UIInput.promoHit`. -/
structure MoveSelector where
  selected_square : Option Nat
  moves : List String
  promotion_prompt : Option Unit
  promotion_move : Option String
  deriving DecidableEq

/-- One input cycle's raw UI reading: whether the left button was pressed this
frame, the board square under the cursor (main.rs line 280), and which of the
four promotion rectangles contains the cursor, if any (the rectangles are
disjoint, so at most one; geometry is external). -/
structure UIInput where
  mousePressed : Bool
  clickedSquare : Nat
  promoHit : Option (Fin 4)
  deriving DecidableEq

/-- Piece code of a promotion choice index, main.rs lines 376-381:
0 is knight, 1 bishop, 2 rook, 3 queen. -/
def promoPieceChar (i : Fin 4) : Char :=
  if i.val = 0 then 'n'
  else if i.val = 1 then 'b'
  else if i.val = 2 then 'r'
  else 'q'

/-- PromotionUI::update (main.rs lines 369-387): without a press nothing is
chosen; with a press, the promotion rectangle containing the cursor, if any,
selects its piece code. -/
def promotionUpdate (pressed : Bool) (hit : Option (Fin 4)) : Option Char :=
  if !pressed then none
  else
    match hit with
    | some i => some (promoPieceChar i)
    | none => none

/-- MoveSelector::on_update (main.rs lines 277-331). Returns the updated
selector and the finalized move string, if one was produced this cycle. When a
promotion choice lands, the source clones the stored move, pops its last
character and pushes the chosen code (modeled as dropLast ++ [c]), then clears
all three selection fields. -/
def MoveSelector.on_update (s : MoveSelector) (inp : UIInput) :
    MoveSelector × Option String :=
  match s.promotion_move with
  | some m =>
    match promotionUpdate inp.mousePressed inp.promoHit with
    | some c =>
      ({ s with promotion_move := none, promotion_prompt := none,
                selected_square := none },
       some (String.mk (m.data.dropLast ++ [c])))
    | none => (s, none)
  | none =>
    if inp.mousePressed then
      match s.selected_square with
      | none => ({ s with selected_square := some inp.clickedSquare }, none)
      | some fromSq =>
        match s.moves.find? (fun str =>
            move_squares str == (fromSq, inp.clickedSquare)) with
        | none => ({ s with selected_square := none }, none)
        | some m =>
          if is_promotion m then
            ({ s with promotion_move := some m, promotion_prompt := some () },
             none)
          else
            ({ s with selected_square := none }, some m)
    else (s, none)

/- ------------------------------------------------------- -/
/- Main loop iteration (main.rs lines 80-139)              -/
/- ------------------------------------------------------- -/

/-- Game status reported by the external rule engine (`chess` crate), as the
values main.rs consumes. -/
inductive GameState
  | InProgress
  | Checkmate
  | Draw
  deriving DecidableEq

/-- Program state carried across loop iterations. The ChessBoard of the
external rule engine is abstracted as the list of move strings applied to it
(`history`); board.get_moves() and board.current_gamestate() become the
`legal` and `gstate` parameters of `loopStep`. -/
structure LoopState where
  history : List String
  our_turn : Bool
  selector : MoveSelector
  deriving DecidableEq

/-- Observable result of one loop iteration: the next state, the record sent
to the peer this iteration, if any, and whether the loop breaks (quit). -/
structure StepOut where
  state : LoopState
  sent : Option MoveRec
  quit : Bool
  deriving DecidableEq

/-- One iteration of the main loop (main.rs lines 80-139), with rendering and
sounds dropped. `net` is what receive_move returned this iteration (assumed
Ok, as the source unwraps it), `inp` the raw UI reading, `menu` the
restart/quit decision Menu::update would return. The source computes
game_state before polling the network, applies any inbound move
unconditionally (rebuilding the move string and toggling the turn flag), and
only inside the our-turn branch runs the move selector and, when game_state
was terminal, the restart/quit menu — restart clears the board but not the
turn flag or the selection fields. -/
def loopStep (legal : List String → List String)
    (gstate : List String → GameState)
    (st : LoopState) (net : Option MoveRec) (inp : UIInput)
    (menu : Option Bool) : StepOut :=
  let game_state := gstate st.history
  let st1 : LoopState :=
    match net with
    | some m =>
      let h := st.history ++ [recvMoveString m]
      { history := h
        our_turn := !st.our_turn
        selector := { st.selector with moves := legal h } }
    | none => st
  if st1.our_turn then
    let upd := st1.selector.on_update inp
    let st2 : LoopState :=
      match upd.2 with
      | some mv =>
        let h := st1.history ++ [mv]
        { history := h
          our_turn := !st1.our_turn
          selector := { upd.1 with moves := legal h } }
      | none => { st1 with selector := upd.1 }
    let sent :=
      match upd.2 with
      | some mv => some (mainOutgoingRecord mv)
      | none => none
    if game_state = GameState.Checkmate ∨ game_state = GameState.Draw then
      match menu with
      | some true =>
        { state :=
            { st2 with
              history := []
              selector := { st2.selector with moves := legal [] } }
          sent := sent
          quit := false }
      | some false => { state := st2, sent := sent, quit := true }
      | none => { state := st2, sent := sent, quit := false }
    else
      { state := st2, sent := sent, quit := false }
  else
    { state := st1, sent := none, quit := false }

/- ------------------------------------------------------- -/
/- Concrete inputs used by evaluations and witnesses       -/
/- ------------------------------------------------------- -/

/-- Host's desired Start (main.rs lines 46-52 with args[1] = "server"). -/
def hostRequest : Start :=
  { is_white := true, name := "server", fen := none, time := none, inc := none }

/-- Joiner's desired Start (main.rs lines 46-52, any non-"server" argument). -/
def joinerRequest : Start :=
  { is_white := false, name := "client", fen := none, time := none, inc := none }

/-- Selector with nothing selected and no legal moves cached. -/
def sel0 : MoveSelector :=
  { selected_square := none, moves := [], promotion_prompt := none,
    promotion_move := none }

/-- Rule-engine stub with no legal moves. -/
def legal0 : List String → List String := fun _ => []

/-- Rule-engine stub that always reports Checkmate. -/
def gstateCk : List String → GameState := fun _ => GameState.Checkmate

/-- Loop state whose side is waiting on the remote. -/
def st0 : LoopState := { history := [], our_turn := false, selector := sel0 }

/-- Loop state whose side holds the turn. -/
def st5 : LoopState := { history := [], our_turn := true, selector := sel0 }

/-- An inbound record: e4 to e5 in wire coordinates, no promotion. -/
def m0 : MoveRec :=
  { fromSq := (4, 4), toSq := (4, 3), promotion := none, forfeit := false,
    ofer_draw := false }

/-- A UI reading with no click. -/
def inp0 : UIInput := { mousePressed := false, clickedSquare := 0, promoHit := none }

/-- Selector holding an open promotion prompt for the stored move "e7e8n". -/
def selProm : MoveSelector :=
  { selected_square := none, moves := [], promotion_prompt := some (),
    promotion_move := some "e7e8n" }

/-- A click landing on the fourth promotion rectangle (the queen). -/
def inpQueen : UIInput :=
  { mousePressed := true, clickedSquare := 0, promoHit := some 3 }

/-- Selector with square a2 (index 48) selected and one cached legal move. -/
def selA2 : MoveSelector :=
  { selected_square := some 48, moves := ["a2a3"], promotion_prompt := none,
    promotion_move := none }

/-- A click on square a8 (index 56), matched by no cached legal move. -/
def inpA8 : UIInput :=
  { mousePressed := true, clickedSquare := 56, promoHit := none }

/- ------------------------------------------------------- -/
/- Theorems                                                -/
/- ------------------------------------------------------- -/

/-- Claim C1, code evaluation at the failing input: with the host requesting
White (and the joiner Black), the initialization
`our_turn = start.is_white == false` of main.rs line 55 puts the host in
RemoteTurn and the joiner in LocalTurn — the exact opposite of the claimed
initial states. -/
theorem c1_initial_turn_inverted :
    turnStateOfFlag (initTurn (establish hostRequest joinerRequest).1)
      = TurnState.RemoteTurn
    ∧ turnStateOfFlag (initTurn (establish hostRequest joinerRequest).2)
      = TurnState.LocalTurn := by
  constructor <;> rfl

/-- Claim C2: for every pair of handshake requests, running the host's
handle_setup and the joiner's handle_setup over the same connection yields
Agreements with complementary `is_white` fields and identical name, fen, time
and inc fields on the two ends. -/
theorem c2_handshake_agreement (h j : Start) :
    (establish h j).1.is_white = !(establish h j).2.is_white
    ∧ (establish h j).1.name = (establish h j).2.name
    ∧ (establish h j).1.fen = (establish h j).2.fen
    ∧ (establish h j).1.time = (establish h j).2.time
    ∧ (establish h j).1.inc = (establish h j).2.inc := by
  simp [establish, serverHandleSetup, clientHandleSetup]

/-- Claim C3, code evaluation at the failing input: "e7e8q" is a finalized
promotion move, yet the outgoing record built for it carries
`promotion = none`; the record round-trips the connection verbatim, and the
receiving side rebuilds only the four-character string "e7e8" — the chosen
promotion piece never reaches the peer. -/
theorem c3_promotion_not_transmitted :
    is_promotion "e7e8q" = true
    ∧ (mainOutgoingRecord "e7e8q").promotion = none
    ∧ receiveMoveCh (sendMoveCh [] (mainOutgoingRecord "e7e8q"))
        = (some (mainOutgoingRecord "e7e8q"), [])
    ∧ recvMoveString (mainOutgoingRecord "e7e8q") = "e7e8" := by
  refine ⟨by decide, rfl, rfl, by decide⟩

/-- Claim C4, counterexample: a genuine I/O failure (a reset connection)
during receive_move is reported as Ok(None), not as an error — the claim's
required Err(IoError) outcome does not happen. -/
theorem c4_genuine_error_swallowed :
    IoErr.genuine IoErr.connReset = true
    ∧ receiveMoveOutcome (MoveRead.fail IoErr.connReset)
        = RecvMoveOutcome.ok none
    ∧ receiveMoveOutcome (MoveRead.fail IoErr.connReset)
        ≠ RecvMoveOutcome.err IoErr.connReset := by
  refine ⟨rfl, rfl, by decide⟩

/-- Claim C4, amended: receive_move and receive_ack return Ok(None) for every
failed read — the would-block condition and genuine failures alike — return
Ok(Some record) when the read yields a decodable message, and panic on
undecodable bytes; no read error is ever surfaced as Err. -/
theorem c4_amended_recv_conflates_errors :
    (∀ e : IoErr, receiveMoveOutcome (MoveRead.fail e) = RecvMoveOutcome.ok none)
    ∧ (∀ e : IoErr, receiveAckOutcome (AckRead.fail e) = RecvAckOutcome.ok none)
    ∧ (∀ m : MoveRec,
        receiveMoveOutcome (MoveRead.decoded (some m))
          = RecvMoveOutcome.ok (some m))
    ∧ (∀ a : AckRec,
        receiveAckOutcome (AckRead.decoded (some a))
          = RecvAckOutcome.ok (some a))
    ∧ receiveMoveOutcome (MoveRead.decoded none) = RecvMoveOutcome.panicked
    ∧ receiveAckOutcome (AckRead.decoded none) = RecvAckOutcome.panicked := by
  exact ⟨fun _ => rfl, fun _ => rfl, fun _ => rfl, fun _ => rfl, rfl, rfl⟩

/-- Claim C5, counterexample: with the rule engine already reporting
Checkmate, a pending inbound move is still read and applied by the next loop
iteration — the history grows by the rebuilt move string and the turn flag
toggles — contradicting "no inbound move is read or applied". -/
theorem c5_inbound_applied_after_checkmate :
    (loopStep legal0 gstateCk st0 (some m0) inp0 none).state.history
      = [recvMoveString m0]
    ∧ (loopStep legal0 gstateCk st0 (some m0) inp0 none).state.history ≠ []
    ∧ (loopStep legal0 gstateCk st0 (some m0) inp0 none).state.our_turn = true := by
  refine ⟨rfl, by decide, rfl⟩

/-- Claim C5, amended: even when the game status is terminal, the loop keeps
polling the network and applies a pending inbound move, appending its rebuilt
move string to the history (possibly followed by one locally produced move);
with no menu decision the session does not quit. The source has no GameOver
turn state beyond the reported game status. -/
theorem c5_amended_polling_continues (legal : List String → List String)
    (gstate : List String → GameState) (st : LoopState) (m : MoveRec)
    (inp : UIInput) (menu : Option Bool)
    (hterm : gstate st.history = GameState.Checkmate
             ∨ gstate st.history = GameState.Draw)
    (hmenu : menu = none) :
    (∃ t, (loopStep legal gstate st (some m) inp menu).state.history
        = st.history ++ [recvMoveString m] ++ t)
    ∧ (loopStep legal gstate st (some m) inp menu).quit = false := by
  subst hmenu
  cases hb : st.our_turn
  case true =>
    refine ⟨⟨[], ?_⟩, ?_⟩ <;> simp [loopStep, hb]
  case false =>
    rcases h2 : (MoveSelector.on_update
        { st.selector with moves := legal (st.history ++ [recvMoveString m]) }
        inp).2 with _ | mv
    · refine ⟨⟨[], ?_⟩, ?_⟩ <;> rcases hterm with ht | ht <;>
        simp [loopStep, hb, h2, ht]
    · refine ⟨⟨[mv], ?_⟩, ?_⟩ <;> rcases hterm with ht | ht <;>
        simp [loopStep, hb, h2, ht]

/-- Witness for the amended C5 at a concrete state: Checkmate reported,
inbound move pending, no menu decision. -/
theorem c5_amended_polling_continues_witness :
    (gstateCk st5.history = GameState.Checkmate
      ∨ gstateCk st5.history = GameState.Draw)
    ∧ ((∃ t, (loopStep legal0 gstateCk st5 (some m0) inp0 none).state.history
          = st5.history ++ [recvMoveString m0] ++ t)
       ∧ (loopStep legal0 gstateCk st5 (some m0) inp0 none).quit = false) :=
  ⟨Or.inl rfl,
   c5_amended_polling_continues legal0 gstateCk st5 m0 inp0 none (Or.inl rfl) rfl⟩

/-- Claim C6, counterexample: a blocking handshake read that yields
undecodable (for instance zero) bytes makes handle_setup panic on unwrap, on
both the host and the joiner side — no error result reaches the caller. -/
theorem c6_malformed_setup_panics :
    serverSetupOutcome hostRequest (StartRead.decoded none)
      = SetupOutcome.panicked
    ∧ clientSetupOutcome joinerRequest (StartRead.decoded none)
      = SetupOutcome.panicked
    ∧ SetupOutcome.isErr (serverSetupOutcome hostRequest (StartRead.decoded none))
      = false
    ∧ SetupOutcome.isErr (clientSetupOutcome joinerRequest (StartRead.decoded none))
      = false :=
  ⟨rfl, rfl, rfl, rfl⟩

/-- Claim C6, amended: on both ends, a handshake read whose read call itself
fails propagates that I/O error to the caller, but a read that yields zero or
malformed bytes panics on `try_into().unwrap()` instead of surfacing an error
result. -/
theorem c6_amended_setup_failure (d : Start) :
    (∀ e : IoErr, serverSetupOutcome d (StartRead.fail e) = SetupOutcome.err e)
    ∧ (∀ e : IoErr, clientSetupOutcome d (StartRead.fail e) = SetupOutcome.err e)
    ∧ serverSetupOutcome d (StartRead.decoded none) = SetupOutcome.panicked
    ∧ clientSetupOutcome d (StartRead.decoded none) = SetupOutcome.panicked :=
  ⟨fun _ => rfl, fun _ => rfl, rfl, rfl⟩

/-- Claim C7: while a promotion prompt is open for the stored move `m`, a
click on one of the four promotion choices replaces the last (placeholder)
character of `m` by the chosen piece code, emits the finalized string, and
clears the whole selection state; a click that hits no promotion choice leaves
the state unchanged and emits nothing. -/
theorem c7_promotion_click (s : MoveSelector) (m : String) (inp : UIInput)
    (h : s.promotion_move = some m) :
    (∀ i : Fin 4, inp.mousePressed = true → inp.promoHit = some i →
        s.on_update inp
          = ({ s with
                promotion_move := none
                promotion_prompt := none
                selected_square := none },
             some (String.mk (m.data.dropLast ++ [promoPieceChar i]))))
    ∧ (inp.promoHit = none → s.on_update inp = (s, none)) := by
  constructor
  · intro i hp hh
    simp [MoveSelector.on_update, h, promotionUpdate, hp, hh]
  · intro hh
    cases hp : inp.mousePressed <;>
      simp [MoveSelector.on_update, h, promotionUpdate, hp, hh]

/-- Witness for C7: clicking the queen choice while "e7e8n" is stored yields
the finalized move "e7e8q" and a fully cleared selector. -/
theorem c7_promotion_click_witness :
    selProm.promotion_move = some "e7e8n"
    ∧ MoveSelector.on_update selProm inpQueen
      = ({ selected_square := none, moves := [], promotion_prompt := none,
           promotion_move := none },
         some "e7e8q") := by
  refine ⟨rfl, ?_⟩
  have h := (c7_promotion_click selProm "e7e8n" inpQueen rfl).1 3 rfl rfl
  rw [h]
  rfl

/-- Claim C8: with a square selected and no promotion prompt open, a click on
a target square matched by no cached legal move string clears the selection
and emits nothing. -/
theorem c8_invalid_target_deselects (s : MoveSelector) (fromSq : Nat)
    (inp : UIInput)
    (h1 : s.promotion_move = none) (h2 : s.selected_square = some fromSq)
    (h3 : inp.mousePressed = true)
    (h4 : s.moves.find? (fun str =>
            move_squares str == (fromSq, inp.clickedSquare)) = none) :
    s.on_update inp = ({ s with selected_square := none }, none) := by
  simp [MoveSelector.on_update, h1, h2, h3, h4]

/-- Witness for C8: with a2 selected and only "a2a3" legal, a click on a8
deselects and emits nothing. -/
theorem c8_invalid_target_deselects_witness :
    (selA2.promotion_move = none
      ∧ selA2.selected_square = some 48
      ∧ inpA8.mousePressed = true
      ∧ selA2.moves.find? (fun str =>
          move_squares str == (48, inpA8.clickedSquare)) = none)
    ∧ MoveSelector.on_update selA2 inpA8
      = ({ selected_square := none, moves := ["a2a3"], promotion_prompt := none,
           promotion_move := none }, none) := by
  refine ⟨⟨rfl, rfl, rfl, by decide⟩, ?_⟩
  have h := c8_invalid_target_deselects selA2 48 inpA8 rfl rfl rfl (by decide)
  rw [h]
  rfl

/-- Claim C9: for every square name with file a-h and rank 1-8, the
sending-side encoding (name to index via `square`, then the wire pair) and the
receiving-side decoding ('a' + file, '8' - rank) are mutual inverses: decoding
the encoded pair reproduces the two name characters. -/
theorem c9_square_roundtrip :
    ∀ f r : Fin 8,
      decodeWireName (encodeWire (square (String.mk
          [Char.ofNat (97 + f.val), Char.ofNat (49 + r.val)])))
        = (Char.ofNat (97 + f.val), Char.ofNat (49 + r.val)) := by
  decide

/-- Claim C10: an inbound move delivered while the turn flag marks the local
side's turn is still applied — its rebuilt move string is appended to the
history — and the turn flag toggles; inbound application is not gated by turn
ownership. -/
theorem c10_inbound_not_gated (legal : List String → List String)
    (gstate : List String → GameState) (st : LoopState) (m : MoveRec)
    (inp : UIInput) (menu : Option Bool)
    (h : st.our_turn = true) :
    (loopStep legal gstate st (some m) inp menu).state.history
      = st.history ++ [recvMoveString m]
    ∧ (loopStep legal gstate st (some m) inp menu).state.our_turn = false := by
  refine ⟨?_, ?_⟩ <;> simp [loopStep, h]

/-- Witness for C10: at a concrete state holding the turn, the inbound move is
applied and the turn flag drops. -/
theorem c10_inbound_not_gated_witness :
    st5.our_turn = true
    ∧ ((loopStep legal0 gstateCk st5 (some m0) inp0 none).state.history
        = st5.history ++ [recvMoveString m0]
       ∧ (loopStep legal0 gstateCk st5 (some m0) inp0 none).state.our_turn
        = false) :=
  ⟨rfl, c10_inbound_not_gated legal0 gstateCk st5 m0 inp0 none rfl⟩

end ChessGui
